import Mathlib

/-!
# Verification of the MLB stats scraper core (`scraper.py`)

Shallow embedding of the pure core of `src/scraper.py`:

* `clean_raw`   — the table parser (scraper.py, lines 60-94);
* `data_mung`   — the per-column type-coercion pass (scraper.py, lines 97-126),
  together with a model of the pandas `astype` conversions it invokes;
* `teams` and `TeamStats.change_url` — the static team directory and the
  URL lookup (scraper.py, lines 28-57 and 174-187).

Python strings become `String`, Python lists become `List`, pandas dtypes
become an explicit sum of cell representations, and the Python
try/except around each column becomes an `Option` result per column.
`float32` cell values are modelled by their exact decimal value as a
mantissa/power-of-ten pair (IEEE-754 rounding is abstracted away; the
dtype tag itself is kept).  String primitives whose Lean library versions
do not reduce in the kernel (`split`, `lower`, `strip`) are implemented
over `List Char` with the semantics of their Python counterparts.
An exception escaping a method is modelled with `Except`; since the raised
exception aborts the method before any assignment, the error case carries
no state: the session state is unchanged.
-/

set_option autoImplicit false

namespace MLBScraper

/-! ## Python string primitives over `List Char` -/

/-- Helper for `pySplit`: walk the characters, cutting at each separator;
`acc` holds the current piece reversed. -/
def splitOnCharAux (sep : Char) : List Char → List Char → List (List Char)
  | [], acc => [acc.reverse]
  | c :: cs, acc =>
      if c = sep then acc.reverse :: splitOnCharAux sep cs []
      else splitOnCharAux sep cs (c :: acc)

/-- Python `s.split(sep)` for a one-character separator: pieces between
occurrences of `sep`, empty pieces preserved (`"a  b".split(' ') ==
["a", "", "b"]`, `"".split(' ') == [""]`). -/
def pySplit (sep : Char) (s : String) : List String :=
  (splitOnCharAux sep s.toList []).map (fun cs => String.mk cs)

/-- Python `s.lower()`, as the character list of the lowered string.
`Char.toLower` lowers the ASCII range, which covers every team name and
the team-name inputs the program handles. -/
def pyLowerChars (s : String) : List Char :=
  s.toList.map Char.toLower

/-- Python `s.strip()`: drop whitespace from both ends. -/
def pyStrip (cs : List Char) : List Char :=
  ((cs.dropWhile Char.isWhitespace).reverse.dropWhile Char.isWhitespace).reverse

/-! ## Table parser (`clean_raw`, scraper.py lines 60-94) -/

/-- The result of `clean_raw`: a `pandas.DataFrame` built as
`pd.DataFrame(df_lst, columns=headers)` — an ordered list of column
names together with the row-major list of rows of string cells. -/
structure StatTable where
  headers : List String
  rows : List (List String)
deriving Repr, DecidableEq

/-- `raw_data[head_ind_start:]` — the data lines that remain after the
header block (scraper.py line 72). -/
def dataLines (web_data_text : String) (head_ind_start : Nat) : List String :=
  (pySplit '\n' web_data_text).drop head_ind_start

/-- `range(len(data) - 2)` — the indices examined by the marker-detection
loop (scraper.py line 77).  Python's `len(data) - 2` is negative (empty
range) for fewer than two lines; `Nat` truncated subtraction gives the
same empty range. -/
def scanRange (data : List String) : List Nat :=
  List.range (data.length - 2)

/-- The scanned indices whose line has length at most 2 characters, i.e.
those the loop treats as index markers (scraper.py line 80). -/
def markerIndices (data : List String) : List Nat :=
  (scanRange data).filter (fun row => (data.getD row "").length ≤ 2)

/-- The row built for the marker at index `row`:
`clean_data = [team_name]` followed by the loop
`for number in num_data.split(' '): clean_data.append(number)`
(scraper.py lines 81-87).  The appends are kept as a fold to mirror the
source loop. -/
def mkRow (data : List String) (row : Nat) : List String :=
  let team_name := data.getD (row + 1) ""
  let num_data := data.getD (row + 2) ""
  (pySplit ' ' num_data).foldl (fun clean_data number => clean_data ++ [number]) [team_name]

/-- `clean_raw(web_data, head_ind_start)` (scraper.py lines 60-93).
`web_data.text` is taken as the input string; `.split('\n')`, the header
slice, the data slice and the marker loop follow the source line by
line. -/
def clean_raw (web_data_text : String) (head_ind_start : Nat) : StatTable :=
  let raw_data := pySplit '\n' web_data_text
  let headers := raw_data.take head_ind_start
  let data := raw_data.drop head_ind_start
  let df_lst := (scanRange data).foldl
    (fun df_lst row =>
      if (data.getD row "").length ≤ 2 then df_lst ++ [mkRow data row] else df_lst)
    []
  { headers := headers, rows := df_lst }

/-! ## Team directory and URL lookup (scraper.py lines 28-57, 129-187) -/

/-- The static `teams` list (scraper.py lines 28-57). -/
def teams : List (String × String) :=
  [("Arizona Diamondbacks", "dbacks"),
   ("Atlanta Braves", "braves"),
   ("Baltimore Orioles", "orioles"),
   ("Boston Red Sox", "redsox"),
   ("Chicago Cubs", "cubs"),
   ("Chicago White Sox", "whitesox"),
   ("Cincinnati Reds", "reds"),
   ("Cleveland Indians", "indians"),
   ("Colorado Rockies", "rockies"),
   ("Detroit Tigers", "tigers"),
   ("Houston Astros", "astros"),
   ("Kansas City Royals", "royals"),
   ("Los Angeles Angels", "angels"),
   ("Los Angeles Dodgers", "dodgers"),
   ("Miami Marlins", "marlins"),
   ("Milwaukee Brewers", "brewers"),
   ("Minnesota Twins", "twins"),
   ("New York Mets", "mets"),
   ("New York Yankees", "yankees"),
   ("Oakland Athletics", "athletics"),
   ("Philadeliphia Phillies", "phillies"),
   ("Pittsburgh Pirates", "pirates"),
   ("San Diego Padres", "padres"),
   ("San Francisco Giants", "giants"),
   ("Seattle Mariners", "mariners"),
   ("St. Louis Cardenals", "cardenals"),
   ("Tampa Bay Rays", "rays"),
   ("Texas Rangers", "rangers"),
   ("Toronto Blue Jays", "bluejays"),
   ("Washington Nationals", "nationals")]

/-- Python's substring test `needle in hay` on character lists: some
drop of `hay` starts with `needle`. -/
def containsSub (needle hay : List Char) : Bool :=
  (List.range (hay.length + 1)).any (fun i => needle.isPrefixOf (hay.drop i))

/-- The comprehension filter `team_name.lower() in n[0].lower()`
(scraper.py line 183). -/
def teamNameMatch (team_name : String) (entry : String × String) : Bool :=
  containsSub (pyLowerChars team_name) (pyLowerChars entry.1)

/-- The mutable attributes of the `TeamStats` session object
(scraper.py lines 149-153); the selenium options object is browser glue
and carries no information relevant to the core. -/
structure TeamStats where
  url : String
  hit_stats : Option StatTable
  pitch_stats : Option StatTable
deriving Repr, DecidableEq

/-- `TeamStats.__init__` (scraper.py lines 134-153). -/
def TeamStats.init : TeamStats :=
  { url := "https://www.mlb.com/yankees/stats/team/"
    hit_stats := none
    pitch_stats := none }

/-- `TeamStats.change_url` (scraper.py lines 174-187):
`new_team = [n[1] for n in teams if team_name.lower() in n[0].lower()]`
then `self.url = f"https://www.mlb.com/{new_team[0]}/stats/team/"`.
`new_team[0]` on an empty list raises `IndexError`, which escapes the
method before the assignment, so the error case returns no state and the
caller's state is unchanged. -/
def TeamStats.change_url (self : TeamStats) (team_name : String) :
    Except String TeamStats :=
  let new_team := (teams.filter (teamNameMatch team_name)).map (fun n => n.2)
  match new_team with
  | [] => Except.error "IndexError: list index out of range"
  | slug :: _ => Except.ok { self with url := "https://www.mlb.com/" ++ slug ++ "/stats/team/" }

/-! ## Type coercion (`data_mung`, scraper.py lines 97-126)

A pandas column is modelled by its name and a cell representation tagged
with its dtype: `object` (strings, as parsed), `int64` (after
`astype('int')`) or `float32` (after `astype('float32')`, values kept as
exact decimal rationals).  `astype` either converts every value of the
column or raises `ValueError`; the all-or-nothing result is an `Option`.
-/

/-- A parsed floating-point cell, kept as its exact decimal value
`mantissa * 10 ^ exp10`.  The program stores such cells with dtype
`float32`; the binary32 rounding of the decimal value is abstracted
away, the conversion policy and its failures are modelled exactly. -/
structure DecFloat where
  mantissa : Int
  exp10 : Int
deriving Repr, DecidableEq

/-- The values of one column under one of the three dtypes the program
produces. -/
inductive CellData where
  | object (vals : List String)
  | int64 (vals : List Int)
  | float32 (vals : List DecFloat)
deriving Repr, DecidableEq

/-- Number of rows stored in a column. -/
def CellData.size : CellData → Nat
  | .object vals => vals.length
  | .int64 vals => vals.length
  | .float32 vals => vals.length

/-- One named dataframe column. -/
structure DCol where
  name : String
  cells : CellData
deriving Repr, DecidableEq

/-- `float_cols` (scraper.py lines 106-107), with its duplicated
`'AVG'` entry. -/
def float_cols : List String :=
  ["AVG", "OBP", "SLG", "OPS", "IP", "ERA", "WHIP", "AVG"]

/-- The same set without the redundant duplicate, as the spec writes it. -/
def float_col_set : List String :=
  ["AVG", "OBP", "SLG", "OPS", "IP", "ERA", "WHIP"]

/-- Digit characters to the number they denote. -/
def digitsToNat (ds : List Char) : Nat :=
  ds.foldl (fun a c => a * 10 + (c.toNat - 48)) 0

/-- Leading sign of a Python numeric literal. -/
def splitSign (cs : List Char) : Int × List Char :=
  match cs with
  | '-' :: rest => (-1, rest)
  | '+' :: rest => (1, rest)
  | rest => (1, rest)

/-- Model of Python `int(s)` as used by pandas `astype('int')` on a
string cell: optional surrounding whitespace, optional sign, one or more
decimal digits; anything else raises `ValueError` (`none`). -/
def parseIntPy (s : String) : Option Int :=
  let (sgn, ds) := splitSign (pyStrip s.toList)
  if ds ≠ [] ∧ ds.all (fun c => c.isDigit) then
    some (sgn * (digitsToNat ds : Int))
  else
    none

/-- Model of an unsigned Python float mantissa without exponent: digits,
optionally split by one dot, at least one digit present.  Returns the
digit value and the power of ten it carries, so `"0.250"` yields
`(250, -3)`. -/
def parseUnsignedFloat (cs : List Char) : Option (Nat × Int) :=
  let ip := cs.takeWhile (fun c => c.isDigit)
  let rest := cs.dropWhile (fun c => c.isDigit)
  match rest with
  | [] => if ip = [] then none else some (digitsToNat ip, 0)
  | '.' :: frac =>
      if frac.all (fun c => c.isDigit) ∧ (ip ≠ [] ∨ frac ≠ []) then
        some (digitsToNat (ip ++ frac), -(frac.length : Int))
      else none
  | _ => none

/-- Model of Python `float(s)` as used by pandas `astype('float32')` on a
string cell: optional whitespace and sign, a decimal mantissa, optional
`e`/`E` exponent.  The special spellings `inf`/`nan` are not modelled (no
scraped statistic uses them); the value is kept exact rather than rounded
to binary32. -/
def parseFloatPy (s : String) : Option DecFloat :=
  let (sgn, cs) := splitSign (pyStrip s.toList)
  let mant := cs.takeWhile (fun c => c ≠ 'e' ∧ c ≠ 'E')
  match cs.dropWhile (fun c => c ≠ 'e' ∧ c ≠ 'E') with
  | [] => (parseUnsignedFloat mant).map (fun me => ⟨sgn * (me.1 : Int), me.2⟩)
  | _ :: ecs =>
      let (esgn, eds) := splitSign ecs
      if eds ≠ [] ∧ eds.all (fun c => c.isDigit) then
        (parseUnsignedFloat mant).map (fun me =>
          ⟨sgn * (me.1 : Int), me.2 + esgn * (digitsToNat eds : Int)⟩)
      else none

/-- Convert every value of a column, or fail (`ValueError`) as soon as
one value does not convert — all-or-nothing, as a raised exception leaves
the column assignment unexecuted. -/
def optMapAll {α : Type} (f : String → Option α) : List String → Option (List α)
  | [] => some []
  | x :: xs =>
      match f x, optMapAll f xs with
      | some y, some ys => some (y :: ys)
      | _, _ => none

/-- Truncation toward zero, as numpy casts floats to integers. -/
def decTrunc (d : DecFloat) : Int :=
  if 0 ≤ d.exp10 then d.mantissa * (10 : Int) ^ d.exp10.toNat
  else d.mantissa.tdiv ((10 : Int) ^ (-d.exp10).toNat)

/-- Model of `Series.astype('int')` (scraper.py line 117): strings are
parsed as Python integers (`ValueError` on failure), integer columns are
unchanged, float columns are truncated toward zero. -/
def astype_int (c : CellData) : Option CellData :=
  match c with
  | .object vals => (optMapAll parseIntPy vals).map CellData.int64
  | .int64 vals => some (.int64 vals)
  | .float32 vals => some (.int64 (vals.map decTrunc))

/-- Model of `Series.astype('float32')` (scraper.py line 121): strings
are parsed as Python floats (`ValueError` on failure), integer columns
are widened, float columns are unchanged. -/
def astype_float32 (c : CellData) : Option CellData :=
  match c with
  | .object vals => (optMapAll parseFloatPy vals).map CellData.float32
  | .int64 vals => some (.float32 (vals.map (fun n => ⟨n, 0⟩)))
  | .float32 vals => some (.float32 vals)

/-- The body of the `data_mung` loop for one column (scraper.py lines
110-125): `if col not in float_cols` attempt `astype('int')`, `elif col
in float_cols` attempt `astype('float32')`; a `ValueError` from either is
swallowed by the `except` clause and the column is left as it was. -/
def mung_col (c : DCol) : DCol :=
  if ¬ (float_cols.contains c.name) then
    match astype_int c.cells with
    | some d => { c with cells := d }
    | none => c
  else
    match astype_float32 c.cells with
    | some d => { c with cells := d }
    | none => c

/-- `data_mung(stats_df)` (scraper.py lines 97-126): the loop over
`stats_df.columns.tolist()` edits each column in place; the edited
dataframe is the column-wise map. -/
def data_mung (stats_df : List DCol) : List DCol :=
  stats_df.map mung_col

end MLBScraper

deriving instance DecidableEq for Except

namespace MLBScraper

/-! ## Helper lemmas -/

/-- Appending one element at a time accumulates the whole list. -/
theorem foldl_append_singleton {α : Type} (l init : List α) :
    l.foldl (fun acc x => acc ++ [x]) init = init ++ l := by
  induction l generalizing init with
  | nil => simp
  | cons a t ih => simp [List.foldl_cons, ih]

/-- The row built at a marker is the team-name line followed by the
space-split data line. -/
theorem mkRow_eq (data : List String) (row : Nat) :
    mkRow data row
      = data.getD (row + 1) "" :: pySplit ' ' (data.getD (row + 2) "") := by
  simp [mkRow, foldl_append_singleton]

/-- The marker loop of `clean_raw` in closed form: the conditional
snoc-fold over the scanned indices is the map over the indices that pass
the length test. -/
theorem clean_raw_foldl (data : List String) (l : List Nat) (acc : List (List String)) :
    l.foldl (fun df_lst row =>
        if (data.getD row "").length ≤ 2 then df_lst ++ [mkRow data row] else df_lst) acc
      = acc ++ (l.filter (fun row => (data.getD row "").length ≤ 2)).map (mkRow data) := by
  induction l generalizing acc with
  | nil => simp
  | cons a t ih =>
      simp only [List.getD_eq_getElem?_getD] at ih
      by_cases h : ((data[a]?).getD "").length ≤ 2 <;>
        simp [List.filter_cons, List.foldl_cons, ih, h]

/-- `clean_raw` in closed form: the headers are the first
`head_ind_start` lines and the rows are built at exactly the marker
indices, in scan order. -/
theorem clean_raw_eq (web_data_text : String) (head_ind_start : Nat) :
    clean_raw web_data_text head_ind_start
      = { headers := (pySplit '\n' web_data_text).take head_ind_start,
          rows := (markerIndices (dataLines web_data_text head_ind_start)).map
            (mkRow (dataLines web_data_text head_ind_start)) } := by
  simp only [clean_raw]
  rw [clean_raw_foldl]
  simp [markerIndices, dataLines, scanRange]

/-- A successful all-or-nothing conversion preserves the number of
values. -/
theorem optMapAll_length {α : Type} (f : String → Option α) (l : List String) :
    ∀ ys, optMapAll f l = some ys → ys.length = l.length := by
  induction l with
  | nil =>
      intro ys h
      simp only [optMapAll] at h
      cases h
      rfl
  | cons x xs ih =>
      intro ys h
      unfold optMapAll at h
      cases hf : f x <;> rw [hf] at h
      · exact absurd h (by simp)
      · cases hrec : optMapAll f xs <;> rw [hrec] at h
        · exact absurd h (by simp)
        · cases h
          simp [ih _ hrec]

/-- One failing value makes the whole conversion fail. -/
theorem optMapAll_none_of_mem {α : Type} (f : String → Option α) (l : List String)
    (x : String) (hx : x ∈ l) (hf : f x = none) : optMapAll f l = none := by
  induction l with
  | nil => cases hx
  | cons a t ih =>
      unfold optMapAll
      rcases List.mem_cons.mp hx with rfl | hx2
      · rw [hf]
      · rw [ih hx2]
        cases f a <;> rfl

/-- A successful `astype('int')` yields an `int64` column. -/
theorem astype_int_shape {c d : CellData} (h : astype_int c = some d) :
    ∃ v, d = CellData.int64 v := by
  cases c with
  | object vals =>
      simp only [astype_int, Option.map_eq_some'] at h
      obtain ⟨v, _, hv⟩ := h
      exact ⟨v, hv.symm⟩
  | int64 vals =>
      simp only [astype_int, Option.some.injEq] at h
      exact ⟨vals, h.symm⟩
  | float32 vals =>
      simp only [astype_int, Option.some.injEq] at h
      exact ⟨vals.map decTrunc, h.symm⟩

/-- A successful `astype('float32')` yields a `float32` column. -/
theorem astype_float32_shape {c d : CellData} (h : astype_float32 c = some d) :
    ∃ v, d = CellData.float32 v := by
  cases c with
  | object vals =>
      simp only [astype_float32, Option.map_eq_some'] at h
      obtain ⟨v, _, hv⟩ := h
      exact ⟨v, hv.symm⟩
  | int64 vals =>
      simp only [astype_float32, Option.some.injEq] at h
      exact ⟨vals.map (fun n => ⟨n, 0⟩), h.symm⟩
  | float32 vals =>
      simp only [astype_float32, Option.some.injEq] at h
      exact ⟨vals, h.symm⟩

/-- An already-converted `int64` column passes `astype('int')`
unchanged. -/
theorem astype_int_fixed {c d : CellData} (h : astype_int c = some d) :
    astype_int d = some d := by
  obtain ⟨v, rfl⟩ := astype_int_shape h
  rfl

/-- An already-converted `float32` column passes `astype('float32')`
unchanged. -/
theorem astype_float32_fixed {c d : CellData} (h : astype_float32 c = some d) :
    astype_float32 d = some d := by
  obtain ⟨v, rfl⟩ := astype_float32_shape h
  rfl

/-- A successful `astype('int')` preserves the number of rows. -/
theorem astype_int_size {c d : CellData} (h : astype_int c = some d) :
    d.size = c.size := by
  cases c with
  | object vals =>
      simp only [astype_int, Option.map_eq_some'] at h
      obtain ⟨v, hv, rfl⟩ := h
      simpa [CellData.size] using optMapAll_length parseIntPy vals v hv
  | int64 vals =>
      simp only [astype_int, Option.some.injEq] at h
      simp [← h]
  | float32 vals =>
      simp only [astype_int, Option.some.injEq] at h
      simp [← h, CellData.size]

/-- A successful `astype('float32')` preserves the number of rows. -/
theorem astype_float32_size {c d : CellData} (h : astype_float32 c = some d) :
    d.size = c.size := by
  cases c with
  | object vals =>
      simp only [astype_float32, Option.map_eq_some'] at h
      obtain ⟨v, hv, rfl⟩ := h
      simpa [CellData.size] using optMapAll_length parseFloatPy vals v hv
  | int64 vals =>
      simp only [astype_float32, Option.some.injEq] at h
      simp [← h, CellData.size]
  | float32 vals =>
      simp only [astype_float32, Option.some.injEq] at h
      simp [← h]

/-- `mung_col` with the branch test written positively. -/
theorem mung_col_eq (c : DCol) :
    mung_col c
      = if float_cols.contains c.name then
          match astype_float32 c.cells with
          | some d => { c with cells := d }
          | none => c
        else
          match astype_int c.cells with
          | some d => { c with cells := d }
          | none => c := by
  unfold mung_col
  by_cases hb : float_cols.contains c.name <;> simp [hb]

/-- Float branch, successful conversion. -/
theorem mung_col_float_some {c : DCol} {d : CellData}
    (hb : float_cols.contains c.name = true) (h : astype_float32 c.cells = some d) :
    mung_col c = { c with cells := d } := by
  rw [mung_col_eq, if_pos hb, h]

/-- Float branch, failed conversion: the column is left alone. -/
theorem mung_col_float_none {c : DCol}
    (hb : float_cols.contains c.name = true) (h : astype_float32 c.cells = none) :
    mung_col c = c := by
  rw [mung_col_eq, if_pos hb, h]

/-- Integer branch, successful conversion. -/
theorem mung_col_int_some {c : DCol} {d : CellData}
    (hb : float_cols.contains c.name = false) (h : astype_int c.cells = some d) :
    mung_col c = { c with cells := d } := by
  rw [mung_col_eq, if_neg (by simp_all), h]

/-- Integer branch, failed conversion: the column is left alone. -/
theorem mung_col_int_none {c : DCol}
    (hb : float_cols.contains c.name = false) (h : astype_int c.cells = none) :
    mung_col c = c := by
  rw [mung_col_eq, if_neg (by simp_all), h]

/-- The coercion pass never renames a column. -/
theorem mung_col_name (c : DCol) : (mung_col c).name = c.name := by
  cases hb : float_cols.contains c.name
  · cases hf : astype_int c.cells
    · rw [mung_col_int_none hb hf]
    · rw [mung_col_int_some hb hf]
  · cases hf : astype_float32 c.cells
    · rw [mung_col_float_none hb hf]
    · rw [mung_col_float_some hb hf]

/-- The coercion pass never changes the number of rows of a column. -/
theorem mung_col_size (c : DCol) : (mung_col c).cells.size = c.cells.size := by
  cases hb : float_cols.contains c.name
  · cases hf : astype_int c.cells
    · rw [mung_col_int_none hb hf]
    · rw [mung_col_int_some hb hf]
      exact astype_int_size hf
  · cases hf : astype_float32 c.cells
    · rw [mung_col_float_none hb hf]
    · rw [mung_col_float_some hb hf]
      exact astype_float32_size hf

/-- Coercing a column twice is the same as coercing it once. -/
theorem mung_col_idem (c : DCol) : mung_col (mung_col c) = mung_col c := by
  cases hb : float_cols.contains c.name with
  | false =>
      cases hf : astype_int c.cells with
      | none => rw [mung_col_int_none hb hf, mung_col_int_none hb hf]
      | some d =>
          rw [mung_col_int_some hb hf]
          have hb2 : float_cols.contains ({ c with cells := d } : DCol).name = false := hb
          have h2 : astype_int ({ c with cells := d } : DCol).cells = some d :=
            astype_int_fixed hf
          rw [mung_col_int_some hb2 h2]
  | true =>
      cases hf : astype_float32 c.cells with
      | none => rw [mung_col_float_none hb hf, mung_col_float_none hb hf]
      | some d =>
          rw [mung_col_float_some hb hf]
          have hb2 : float_cols.contains ({ c with cells := d } : DCol).name = true := hb
          have h2 : astype_float32 ({ c with cells := d } : DCol).cells = some d :=
            astype_float32_fixed hf
          rw [mung_col_float_some hb2 h2]

/-- The duplicated `'AVG'` entry of `float_cols` is redundant: membership
agrees with the deduplicated set. -/
theorem float_cols_contains_eq (name : String) :
    float_cols.contains name = float_col_set.contains name := by
  simp only [float_cols, float_col_set, List.contains_cons]
  cases h : name == "AVG" <;> simp [h]

/-! ## Claim theorems: table parser -/

/-- C1. For every raw text block and header count, `clean_raw` builds one
row per recognized marker: the rows are exactly, in scan order, the lists
`team-name line :: split(data line)` taken at the marker indices (the
scanned indices whose line has length at most 2, the team-name line being
the line after the marker and the data line the one after that); in
particular every row's first column is the team-name line that followed
its marker line. -/
theorem clean_raw_builds_rows_at_markers (web_data_text : String) (head_ind_start : Nat) :
    ((clean_raw web_data_text head_ind_start).rows
        = (markerIndices (dataLines web_data_text head_ind_start)).map (fun i =>
            (dataLines web_data_text head_ind_start).getD (i + 1) ""
              :: pySplit ' ' ((dataLines web_data_text head_ind_start).getD (i + 2) "")))
    ∧ ∀ r ∈ (clean_raw web_data_text head_ind_start).rows,
        ∃ i ∈ markerIndices (dataLines web_data_text head_ind_start),
          r.head? = some ((dataLines web_data_text head_ind_start).getD (i + 1) "") := by
  have hrows : (clean_raw web_data_text head_ind_start).rows
      = (markerIndices (dataLines web_data_text head_ind_start)).map
          (mkRow (dataLines web_data_text head_ind_start)) := by
    rw [clean_raw_eq]
  constructor
  · rw [hrows]
    exact List.map_congr_left (fun i _ => mkRow_eq _ i)
  · intro r hr
    rw [hrows] at hr
    obtain ⟨i, hi, hri⟩ := List.mem_map.mp hr
    exact ⟨i, hi, by rw [← hri, mkRow_eq]; rfl⟩

/-- C2. The marker-detection scan examines exactly the data-line indices
`i` with `i + 2 < len(data)`, i.e. `0` through `len(data) - 3`: the final
two data lines are never tested as markers, whatever their content, and
every row construction reads within bounds (the marker's two following
lines exist). -/
theorem clean_raw_scan_bounds (web_data_text : String) (head_ind_start : Nat) :
    (∀ i, i ∈ scanRange (dataLines web_data_text head_ind_start)
        ↔ i + 2 < (dataLines web_data_text head_ind_start).length)
    ∧ (dataLines web_data_text head_ind_start).length - 2
        ∉ scanRange (dataLines web_data_text head_ind_start)
    ∧ (dataLines web_data_text head_ind_start).length - 1
        ∉ scanRange (dataLines web_data_text head_ind_start)
    ∧ ∀ i ∈ markerIndices (dataLines web_data_text head_ind_start),
        i + 1 < (dataLines web_data_text head_ind_start).length
        ∧ i + 2 < (dataLines web_data_text head_ind_start).length := by
  refine ⟨fun i => ?_, ?_, ?_, fun i hi => ?_⟩
  · simp only [scanRange, List.mem_range]
    omega
  · simp only [scanRange, List.mem_range]
    omega
  · simp only [scanRange, List.mem_range]
    omega
  · have := List.mem_filter.mp hi
    have h2 := this.1
    simp only [scanRange, List.mem_range] at h2
    omega

/-- C3. For valid inputs (at least `head_ind_start` lines in the raw
block), the parsed table has as many columns as header lines — the first
`head_ind_start` lines, in order — and as many rows as recognized
markers. -/
theorem clean_raw_shape (web_data_text : String) (head_ind_start : Nat)
    (hlen : head_ind_start ≤ (pySplit '\n' web_data_text).length) :
    (clean_raw web_data_text head_ind_start).headers.length = head_ind_start
    ∧ (clean_raw web_data_text head_ind_start).headers
        = (pySplit '\n' web_data_text).take head_ind_start
    ∧ (clean_raw web_data_text head_ind_start).rows.length
        = (markerIndices (dataLines web_data_text head_ind_start)).length := by
  rw [clean_raw_eq]
  refine ⟨?_, rfl, by simp⟩
  simpa using hlen

/-- Witness for C3 on the spec's example shape: two header lines followed
by one marker/team-name/data triplet give a 2-column, 1-row table. -/
theorem clean_raw_shape_witness :
    2 ≤ (pySplit '\n' "Rank\nTeam\n1\nBoston Red Sox\n10 .250 .330").length
    ∧ ((clean_raw "Rank\nTeam\n1\nBoston Red Sox\n10 .250 .330" 2).headers.length = 2
      ∧ (clean_raw "Rank\nTeam\n1\nBoston Red Sox\n10 .250 .330" 2).headers
          = (pySplit '\n' "Rank\nTeam\n1\nBoston Red Sox\n10 .250 .330").take 2
      ∧ (clean_raw "Rank\nTeam\n1\nBoston Red Sox\n10 .250 .330" 2).rows.length
          = (markerIndices (dataLines "Rank\nTeam\n1\nBoston Red Sox\n10 .250 .330" 2)).length) :=
  ⟨by decide, clean_raw_shape "Rank\nTeam\n1\nBoston Red Sox\n10 .250 .330" 2 (by decide)⟩

/-- C9. The scan does not skip the lines consumed by a recognized
triplet: when the line after a marker is itself at most 2 characters
long (and enough lines follow), that line is treated as a marker too, so
the table contains both overlapping rows — the second row's team-name
line is the first row's data line. -/
theorem clean_raw_overlapping_rows (web_data_text : String) (head_ind_start i : Nat)
    (hbound : i + 3 < (dataLines web_data_text head_ind_start).length)
    (hm1 : ((dataLines web_data_text head_ind_start).getD i "").length ≤ 2)
    (hm2 : ((dataLines web_data_text head_ind_start).getD (i + 1) "").length ≤ 2) :
    ((dataLines web_data_text head_ind_start).getD (i + 1) ""
        :: pySplit ' ' ((dataLines web_data_text head_ind_start).getD (i + 2) ""))
      ∈ (clean_raw web_data_text head_ind_start).rows
    ∧ ((dataLines web_data_text head_ind_start).getD (i + 2) ""
        :: pySplit ' ' ((dataLines web_data_text head_ind_start).getD (i + 3) ""))
      ∈ (clean_raw web_data_text head_ind_start).rows := by
  have hrows : (clean_raw web_data_text head_ind_start).rows
      = (markerIndices (dataLines web_data_text head_ind_start)).map
          (mkRow (dataLines web_data_text head_ind_start)) := by
    rw [clean_raw_eq]
  rw [hrows]
  constructor
  · apply List.mem_map.mpr
    refine ⟨i, List.mem_filter.mpr ⟨?_, by simpa using hm1⟩, mkRow_eq _ i⟩
    simp only [scanRange, List.mem_range]
    omega
  · apply List.mem_map.mpr
    refine ⟨i + 1, List.mem_filter.mpr ⟨?_, by simpa using hm2⟩, ?_⟩
    · simp only [scanRange, List.mem_range]
      omega
    · rw [mkRow_eq]

/-- Witness for C9: in the block `"H\n1\nAB\nx y\nz"` with one header
line, the data lines are `["1", "AB", "x y", "z"]`; `"1"` is a marker and
the team-name line `"AB"` is itself short enough to be a marker, so the
rows `["AB", "x", "y"]` and `["x y", "z"]` are both produced and share
the line `"x y"`. -/
theorem clean_raw_overlapping_rows_witness :
    0 + 3 < (dataLines "H\n1\nAB\nx y\nz" 1).length
    ∧ ((dataLines "H\n1\nAB\nx y\nz" 1).getD 0 "").length ≤ 2
    ∧ ((dataLines "H\n1\nAB\nx y\nz" 1).getD (0 + 1) "").length ≤ 2
    ∧ (((dataLines "H\n1\nAB\nx y\nz" 1).getD (0 + 1) ""
          :: pySplit ' ' ((dataLines "H\n1\nAB\nx y\nz" 1).getD (0 + 2) ""))
        ∈ (clean_raw "H\n1\nAB\nx y\nz" 1).rows
      ∧ ((dataLines "H\n1\nAB\nx y\nz" 1).getD (0 + 2) ""
          :: pySplit ' ' ((dataLines "H\n1\nAB\nx y\nz" 1).getD (0 + 3) ""))
        ∈ (clean_raw "H\n1\nAB\nx y\nz" 1).rows) :=
  ⟨by decide, by decide, by decide,
    clean_raw_overlapping_rows "H\n1\nAB\nx y\nz" 1 0 (by decide) (by decide) (by decide)⟩

/-! ## Claim theorems: type coercion -/

/-- C4. For every table and column, `data_mung` converts the column by
name: a name in the fixed float set {AVG, OBP, SLG, OPS, IP, ERA, WHIP}
(the duplicate `'AVG'` of the source list being redundant) gets
`astype('float32')` — on success the cells become the parsed
floating-point values — and any other name gets the whole-number
`astype('int')` attempt; when the conversion fails the column is left as
it was (text). -/
theorem data_mung_column_policy (stats_df : List DCol) (i : Nat) (c : DCol)
    (hget : stats_df[i]? = some c) :
    ∃ c', (data_mung stats_df)[i]? = some c'
      ∧ c'.name = c.name
      ∧ float_cols.contains c.name = float_col_set.contains c.name
      ∧ (float_col_set.contains c.name = true →
          ((∃ vs, astype_float32 c.cells = some (CellData.float32 vs)
              ∧ c'.cells = CellData.float32 vs)
            ∨ (astype_float32 c.cells = none ∧ c' = c)))
      ∧ (float_col_set.contains c.name = false →
          ((∃ d, astype_int c.cells = some d ∧ c'.cells = d)
            ∨ (astype_int c.cells = none ∧ c' = c))) := by
  refine ⟨mung_col c, ?_, mung_col_name c, float_cols_contains_eq c.name, ?_, ?_⟩
  · rw [data_mung, List.getElem?_map, hget]
    rfl
  · intro hb
    have hb2 : float_cols.contains c.name = true := by
      rw [float_cols_contains_eq]
      exact hb
    cases hf : astype_float32 c.cells with
    | some d =>
        obtain ⟨vs, rfl⟩ := astype_float32_shape hf
        exact Or.inl ⟨vs, rfl, by rw [mung_col_float_some hb2 hf]⟩
    | none => exact Or.inr ⟨rfl, mung_col_float_none hb2 hf⟩
  · intro hb
    have hb2 : float_cols.contains c.name = false := by
      rw [float_cols_contains_eq]
      exact hb
    cases hf : astype_int c.cells with
    | some d => exact Or.inl ⟨d, rfl, by rw [mung_col_int_some hb2 hf]⟩
    | none => exact Or.inr ⟨rfl, mung_col_int_none hb2 hf⟩

/-- Witness for C4: an `AVG` column of `["0.275"]` is converted by the
float branch. -/
theorem data_mung_column_policy_witness :
    ([({ name := "AVG", cells := CellData.object ["0.275"] } : DCol)][0]?
        = some { name := "AVG", cells := CellData.object ["0.275"] })
    ∧ ∃ c', (data_mung [{ name := "AVG", cells := CellData.object ["0.275"] }])[0]? = some c'
        ∧ c'.name = ({ name := "AVG", cells := CellData.object ["0.275"] } : DCol).name
        ∧ float_cols.contains ({ name := "AVG", cells := CellData.object ["0.275"] } : DCol).name
            = float_col_set.contains ({ name := "AVG", cells := CellData.object ["0.275"] } : DCol).name
        ∧ (float_col_set.contains ({ name := "AVG", cells := CellData.object ["0.275"] } : DCol).name = true →
            ((∃ vs, astype_float32 ({ name := "AVG", cells := CellData.object ["0.275"] } : DCol).cells
                  = some (CellData.float32 vs)
                ∧ c'.cells = CellData.float32 vs)
              ∨ (astype_float32 ({ name := "AVG", cells := CellData.object ["0.275"] } : DCol).cells = none
                ∧ c' = { name := "AVG", cells := CellData.object ["0.275"] })))
        ∧ (float_col_set.contains ({ name := "AVG", cells := CellData.object ["0.275"] } : DCol).name = false →
            ((∃ d, astype_int ({ name := "AVG", cells := CellData.object ["0.275"] } : DCol).cells = some d
                ∧ c'.cells = d)
              ∨ (astype_int ({ name := "AVG", cells := CellData.object ["0.275"] } : DCol).cells = none
                ∧ c' = { name := "AVG", cells := CellData.object ["0.275"] }))) :=
  ⟨by decide, data_mung_column_policy [{ name := "AVG", cells := CellData.object ["0.275"] }] 0
    { name := "AVG", cells := CellData.object ["0.275"] } (by decide)⟩

/-- C5. Type coercion is idempotent: running `data_mung` twice gives the
same table as running it once. -/
theorem data_mung_idempotent (stats_df : List DCol) :
    data_mung (data_mung stats_df) = data_mung stats_df := by
  rw [data_mung, data_mung, List.map_map]
  exact List.map_congr_left (fun c _ => mung_col_idem c)

/-- C6. A column with non-numeric content fails its conversion and is
left entirely unchanged as text — no value in it is converted — while
every other column is still processed normally; the failure is swallowed:
`data_mung` still returns a full table of the same length. -/
theorem data_mung_swallows_failure (stats_df : List DCol) (i : Nat) (c : DCol)
    (vals : List String) (v : String)
    (hget : stats_df[i]? = some c) (hcells : c.cells = CellData.object vals) (hv : v ∈ vals)
    (hfailF : float_cols.contains c.name = true → parseFloatPy v = none)
    (hfailI : float_cols.contains c.name = false → parseIntPy v = none) :
    (data_mung stats_df)[i]? = some c
    ∧ (∀ j, j ≠ i → (data_mung stats_df)[j]? = (stats_df[j]?).map mung_col)
    ∧ (data_mung stats_df).length = stats_df.length := by
  have hunch : mung_col c = c := by
    cases hb : float_cols.contains c.name with
    | false =>
        refine mung_col_int_none hb ?_
        rw [hcells]
        simp only [astype_int]
        rw [optMapAll_none_of_mem parseIntPy vals v hv (hfailI hb)]
        rfl
    | true =>
        refine mung_col_float_none hb ?_
        rw [hcells]
        simp only [astype_float32]
        rw [optMapAll_none_of_mem parseFloatPy vals v hv (hfailF hb)]
        rfl
  refine ⟨?_, fun j _ => ?_, ?_⟩
  · simp only [data_mung, List.getElem?_map, hget, hunch, Option.map_some']
  · simp only [data_mung, List.getElem?_map]
  · simp [data_mung]

/-- Witness for C6: in a table whose first column is the team-name text
column, `data_mung` leaves that column as text and still coerces the
`AVG` column after it. -/
theorem data_mung_swallows_failure_witness :
    ([({ name := "Team", cells := CellData.object ["Yankees"] } : DCol),
        { name := "AVG", cells := CellData.object ["0.275"] }][0]?
        = some { name := "Team", cells := CellData.object ["Yankees"] })
    ∧ "Yankees" ∈ ["Yankees"]
    ∧ ((data_mung [{ name := "Team", cells := CellData.object ["Yankees"] },
          { name := "AVG", cells := CellData.object ["0.275"] }])[0]?
          = some { name := "Team", cells := CellData.object ["Yankees"] }
      ∧ (∀ j, j ≠ 0 →
          (data_mung [({ name := "Team", cells := CellData.object ["Yankees"] } : DCol),
            { name := "AVG", cells := CellData.object ["0.275"] }])[j]?
            = ([({ name := "Team", cells := CellData.object ["Yankees"] } : DCol),
                { name := "AVG", cells := CellData.object ["0.275"] }][j]?).map mung_col)
      ∧ (data_mung [({ name := "Team", cells := CellData.object ["Yankees"] } : DCol),
          { name := "AVG", cells := CellData.object ["0.275"] }]).length
          = [({ name := "Team", cells := CellData.object ["Yankees"] } : DCol),
              { name := "AVG", cells := CellData.object ["0.275"] }].length) :=
  ⟨by decide, by decide,
    data_mung_swallows_failure
      [{ name := "Team", cells := CellData.object ["Yankees"] },
        { name := "AVG", cells := CellData.object ["0.275"] }]
      0 { name := "Team", cells := CellData.object ["Yankees"] } ["Yankees"] "Yankees"
      (by decide) (by decide) (by decide) (fun _ => by decide) (fun _ => by decide)⟩

/-- C10. `data_mung` changes only cell types and values: the column
names, their order, and the per-column row counts are unchanged. -/
theorem data_mung_frame (stats_df : List DCol) :
    (data_mung stats_df).map DCol.name = stats_df.map DCol.name
    ∧ (data_mung stats_df).map (fun c => c.cells.size)
        = stats_df.map (fun c => c.cells.size) := by
  constructor
  · rw [data_mung, List.map_map]
    exact List.map_congr_left (fun c _ => mung_col_name c)
  · rw [data_mung, List.map_map]
    exact List.map_congr_left (fun c _ => mung_col_size c)

/-! ## Claim theorems: team directory lookup -/

/-- The head of a filtered list is its first match. -/
theorem filter_head?_eq_find? {α : Type} (p : α → Bool) (l : List α) :
    (l.filter p).head? = l.find? p := by
  induction l with
  | nil => rfl
  | cons a t ih =>
      by_cases h : p a <;> simp [List.filter_cons, List.find?_cons, h, ih]

/-- C7. For a team-name input matching at least one directory entry,
`change_url` selects the slug of the first entry whose display name
contains the input as a case-insensitive substring and sets the session
URL to `https://www.mlb.com/<slug>/stats/team/`. -/
theorem change_url_first_match (self : TeamStats) (team_name : String)
    (e : String × String) (hfind : teams.find? (teamNameMatch team_name) = some e) :
    TeamStats.change_url self team_name
      = Except.ok { self with url := "https://www.mlb.com/" ++ e.2 ++ "/stats/team/" } := by
  have hhead : (teams.filter (teamNameMatch team_name)).head? = some e := by
    rw [filter_head?_eq_find?]
    exact hfind
  cases hfl : teams.filter (teamNameMatch team_name) with
  | nil => rw [hfl] at hhead; cases hhead
  | cons x xs =>
      rw [hfl] at hhead
      have hx : x = e := by simpa using hhead
      subst hx
      simp only [TeamStats.change_url, hfl, List.map_cons]

/-- Witness for C7, the spec's own example: `lookup("red sox")` matches
the entry `("Boston Red Sox", "redsox")` first, and the session URL
becomes `https://www.mlb.com/redsox/stats/team/`. -/
theorem change_url_first_match_witness :
    teams.find? (teamNameMatch "red sox") = some ("Boston Red Sox", "redsox")
    ∧ TeamStats.change_url TeamStats.init "red sox"
        = Except.ok { TeamStats.init with url := "https://www.mlb.com/redsox/stats/team/" } :=
  ⟨by decide,
    (change_url_first_match TeamStats.init "red sox" ("Boston Red Sox", "redsox")
      (by decide)).trans (by decide)⟩

/-- C8. For a team-name input matching no directory entry, the
comprehension produces an empty list and the `new_team[0]` access raises
`IndexError`; the raised exception aborts the method before the URL
assignment, so the session state is unchanged (the error case of the
embedding carries no new state). -/
theorem change_url_no_match (self : TeamStats) (team_name : String)
    (hnone : ∀ e ∈ teams, teamNameMatch team_name e = false) :
    (teams.filter (teamNameMatch team_name)).map (fun n => n.2) = []
    ∧ TeamStats.change_url self team_name
        = Except.error "IndexError: list index out of range" := by
  have hfl : teams.filter (teamNameMatch team_name) = [] := by
    rw [List.filter_eq_nil_iff]
    intro a ha
    simp [hnone a ha]
  refine ⟨by rw [hfl]; rfl, ?_⟩
  simp only [TeamStats.change_url, hfl, List.map_nil]

/-- Witness for C8: the input `"zzz-no-team"` (the spec's example of an
unknown team) matches no entry, and `change_url` faults with
`IndexError`. -/
theorem change_url_no_match_witness :
    (∀ e ∈ teams, teamNameMatch "zzz-no-team" e = false)
    ∧ ((teams.filter (teamNameMatch "zzz-no-team")).map (fun n => n.2) = []
      ∧ TeamStats.change_url TeamStats.init "zzz-no-team"
          = Except.error "IndexError: list index out of range") :=
  ⟨by decide, change_url_no_match TeamStats.init "zzz-no-team" (by decide)⟩

end MLBScraper
